import Mathlib

/-!
Verification of the pyfixest estimation front end and its randomization
inference (ritest) subsystem, against the natural-language specification.

The Python source under scrutiny is `pyfixest/estimation/estimation.py`
(argument validation, `feols`, `fepois`, `feols_compressed`) and
`tests/test_ritest.py`.  Python is dynamically typed, so call arguments are
embedded as a `PyVal` sum type; Python exceptions become an explicit
`Except PyError` result; Python floats are embedded as exact rationals.
The ritest engine itself (`pyfixest/estimation/ri.py`) is not part of the
source tree given here; where a claim depends on it, the engine is modelled
from the specification, and each such definition carries a doc comment
starting with "Modelled from the spec:".
-/

deriving instance DecidableEq for Except

namespace PyFixest

/-- The rational 10^(-k), in normal form: the embedding of the Python float
literals 1e-08 and 1e-10 (exactly representable comparisons are all the
validated code performs with them). -/
def ratPow10Neg (k : ℕ) : ℚ :=
  ⟨1, 10 ^ k, pow_ne_zero k (by norm_num), Nat.coprime_one_left _⟩

/-- The Python exception kinds raised (explicitly or implicitly) by the code
under scrutiny.  `assertionError` is the implicit exception of a bare
`assert` statement; `featureDeprecationError` is pyfixest.errors.
FeatureDeprecationError. -/
inductive PyError where
  | typeError (msg : String)
  | valueError (msg : String)
  | assertionError (msg : String)
  | notImplementedError (msg : String)
  | nameError (msg : String)
  | featureDeprecationError (msg : String)
  | indexError (msg : String)
  deriving DecidableEq, Repr

/-- The error kinds that `_estimation_input_checks` raises by name
(`raise TypeError(...)` / `raise ValueError(...)`): the "distinct, named
error kinds" of the specification.  A bare `assert` (AssertionError) is not
one of them. -/
def PyError.isNamedValidationError : PyError → Bool
  | .typeError _ => true
  | .valueError _ => true
  | _ => false

/-- A dataframe, reduced to what the validated code observes: named numeric
columns over aligned rows (rationals embed the Python floats exactly). -/
structure DataFrame where
  cols : List String
  rows : List (List ℚ)
  deriving DecidableEq, Repr

/-- Python runtime values, as far as the validation code inspects them:
strings, floats, ints, bools, None, dicts and dataframes.  `rngGenerator s`
stands for `np.random.default_rng(s)`. -/
inductive PyVal where
  | str (s : String)
  | float (q : ℚ)
  | int (n : ℤ)
  | bool (b : Bool)
  | none
  | dict
  | dataframe (df : DataFrame)
  | rngGenerator (seed : ℕ)
  deriving DecidableEq, Repr

def PyVal.isStr : PyVal → Bool
  | .str _ => true
  | _ => false

def PyVal.isFloat : PyVal → Bool
  | .float _ => true
  | _ => false

def PyVal.isBool : PyVal → Bool
  | .bool _ => true
  | _ => false

def PyVal.isNone : PyVal → Bool
  | .none => true
  | _ => false

def PyVal.isDict : PyVal → Bool
  | .dict => true
  | _ => false

def PyVal.isDataFrame : PyVal → Bool
  | .dataframe _ => true
  | _ => false

/-- The rational payload of a float value (only consulted after an
`isinstance(x, float)` check has succeeded). -/
def PyVal.floatVal : PyVal → ℚ
  | .float q => q
  | _ => 0

/-- The string payload of a str value (only consulted after an
`isinstance(x, str)` check has succeeded). -/
def PyVal.strVal : PyVal → String
  | .str s => s
  | _ => ""

/-- `c in data.columns` for a dataframe value. -/
def PyVal.hasColumn : PyVal → String → Bool
  | .dataframe df, c => df.cols.contains c
  | _, _ => false

/-- `data.columns` of a dataframe value. -/
def PyVal.columns : PyVal → List String
  | .dataframe df => df.cols
  | _ => []

/-- The value `x` lies strictly between 0 and 1 and is a Python float:
the well-formedness condition the spec states for `collin_tol` and
`fixef_tol`. -/
def floatBetween01 : PyVal → Prop
  | .float q => 0 < q ∧ q < 1
  | _ => False

/-- The arguments of `feols` that `_estimation_input_checks` inspects
(estimation.py lines 550 to 565).  The field `lean_` models the Python
parameter named `lean`. -/
structure EstimationArgs where
  fml : PyVal
  data : PyVal
  vcov : PyVal
  weights : PyVal
  fixef_rm : PyVal
  collin_tol : PyVal
  copy_data : PyVal
  store_data : PyVal
  lean_ : PyVal
  fixef_tol : PyVal
  weights_type : PyVal
  use_compression : PyVal
  use_mundlak : PyVal
  deriving DecidableEq, Repr

/-- The checks of `_estimation_input_checks` (estimation.py lines 550 to
641), in source order: each entry is the raise condition of one `if` (or
`assert`) statement together with the exception it raises.  Messages built
with f-string interpolation keep their static text. -/
def checkList (a : EstimationArgs) : List (Bool × PyError) :=
  [(!a.fml.isStr, .typeError "fml must be a string"),
   (!a.data.isDataFrame, .typeError "data must be a pandas or polars dataframe"),
   (!(a.vcov.isStr || a.vcov.isDict || a.vcov.isNone),
     .typeError "vcov must be a string, dictionary, or None"),
   (!a.fixef_rm.isStr, .typeError "fixef_rm must be a string"),
   (!a.collin_tol.isFloat, .typeError "collin_tol must be a float"),
   (!(a.fixef_rm == .str "none" || a.fixef_rm == .str "singleton"),
     .valueError "fixef_rm must be either none or singleton"),
   (decide (a.collin_tol.floatVal ≤ 0),
     .valueError "collin_tol must be greater than zero"),
   (decide (1 ≤ a.collin_tol.floatVal),
     .valueError "collin_tol must be less than one"),
   (!(a.weights.isStr || a.weights.isNone),
     .valueError "weights must be a string or None"),
   (a.weights.isStr && !(a.data.hasColumn a.weights.strVal),
     .assertionError "weights must be a column in data"),
   (!a.copy_data.isBool, .typeError "The function argument must be of type bool."),
   (!a.store_data.isBool, .typeError "The function argument must be of type bool."),
   (!a.lean_.isBool, .typeError "The function argument must be of type bool."),
   (!a.fixef_tol.isFloat,
     .typeError "The function argument fixef_tol needs to be of type float."),
   (decide (a.fixef_tol.floatVal ≤ 0),
     .valueError "The function argument fixef_tol needs to be strictly larger than 0."),
   (decide (1 ≤ a.fixef_tol.floatVal),
     .valueError "The function argument fixef_tol needs to be strictly smaller than 1."),
   (!(a.weights_type == .str "aweights" || a.weights_type == .str "fweights"),
     .valueError "The weights_type argument must be of type aweights or fweights."),
   (!a.use_compression.isBool,
     .typeError "The function argument use_compression must be of type bool."),
   (a.use_compression == .bool true && !a.weights.isNone,
     .notImplementedError "Compressed regression is not supported with weights."),
   (!a.use_mundlak.isBool,
     .typeError "The function argument use_mundlak must be of type bool.")]

/-- Run a sequence of raise-condition checks: the first check whose
condition holds raises its exception, exactly as the sequence of Python
`if ...: raise ...` statements does. -/
def runChecks : List (Bool × PyError) → Except PyError Unit
  | [] => .ok ()
  | c :: rest => if c.1 then .error c.2 else runChecks rest

/-- Port of `_estimation_input_checks` (estimation.py lines 550 to 641). -/
def _estimation_input_checks (a : EstimationArgs) : Except PyError Unit :=
  runChecks (checkList a)

/-- The model object returned by a successful (single-model) `feols` call.
The numeric estimation itself (`FixestMulti._estimate_all_models`) lives
outside the given source tree; the record carries the configuration the
constructed object is handed, which is all the claims below consult.
`depvarF` and `covarsF` model the `_depvar` and `_covars` attributes that
`feols_compressed` attaches after the fact. -/
structure FeolsFit where
  fml : String
  dataCols : List String
  vcovArg : PyVal
  weights : Option String
  weights_type : String
  depvarF : Option String := Option.none
  covarsF : Option String := Option.none
  deriving DecidableEq, Repr

/-- Port of `feols` (estimation.py lines 16 to 372), staged: the deprecation
check on `i_ref1`, then `_estimation_input_checks`, and only then the
construction of the `FixestMulti` object and the estimation.  A returned
`.error` therefore means no model object was ever constructed. -/
def feols (i_ref1 : PyVal) (a : EstimationArgs) : Except PyError FeolsFit :=
  if !i_ref1.isNone then
    .error (.featureDeprecationError "The i_ref1 function argument is deprecated with pyfixest version 0.18.0.")
  else
    match _estimation_input_checks a with
    | .error e => .error e
    | .ok _ =>
        .ok { fml := a.fml.strVal, dataCols := a.data.columns, vcovArg := a.vcov,
              weights := if a.weights.isStr then some a.weights.strVal else Option.none,
              weights_type := a.weights_type.strVal }

/-- Python `str.split(sep)` for a single-character separator, via the
character list underlying the string. -/
def pySplitChar (sep : Char) (s : String) : List String :=
  (s.toList.foldr
    (fun c acc =>
      if c = sep then [] :: acc
      else (c :: (acc.headD [])) :: acc.tail)
    [[]]).map List.asString

/-- Python `str.replace(a, "")` for a single-character pattern. -/
def pyRemoveChar (a : Char) (s : String) : String :=
  (s.toList.filter (fun c => c ≠ a)).asString

/-- Python `str.replace(a, b)` for single-character pattern and
replacement. -/
def pyReplaceChar (a b : Char) (s : String) : String :=
  (s.toList.map (fun c => if c = a then b else c)).asString

/-- Modelled from the spec: whether a formula string requests IV
estimation.  The formula parser (`FixestFormula` / `FixestMulti`, which set
`_is_iv`) is outside the given source tree; per the spec and the `feols`
docstring, an IV request is a formula whose part after a `|` separator is
itself a two-sided formula, as in `Y ~ X2 | f1 + f2 | X1 ~ Z1`. -/
def formulaIsIV (fml : String) : Bool :=
  ((pySplitChar '|' fml).drop 1).any (fun part => part.toList.contains '~')

/-- The arguments of `fepois` (estimation.py lines 375 to 390).  The field
`lean_` models the Python parameter named `lean`. -/
structure FepoisArgs where
  fml : PyVal
  data : PyVal
  vcov : PyVal
  fixef_rm : PyVal
  fixef_tol : PyVal
  iwls_tol : PyVal
  iwls_maxiter : PyVal
  collin_tol : PyVal
  copy_data : PyVal
  store_data : PyVal
  lean_ : PyVal
  deriving DecidableEq, Repr

/-- The argument record `fepois` hands to `_estimation_input_checks`
(estimation.py lines 498 to 517): weights are forced to None, the weight
type to aweights, and compression and Mundlak to off. -/
def fepoisCheckArgs (pa : FepoisArgs) : EstimationArgs :=
  { fml := pa.fml, data := pa.data, vcov := pa.vcov, weights := PyVal.none,
    fixef_rm := pa.fixef_rm, collin_tol := pa.collin_tol,
    copy_data := pa.copy_data, store_data := pa.store_data, lean_ := pa.lean_,
    fixef_tol := pa.fixef_tol, weights_type := PyVal.str "aweights",
    use_compression := PyVal.bool false, use_mundlak := PyVal.bool false }

/-- The model object returned by a successful `fepois` call.  `estimated`
records that `_estimate_all_models` ran: it is reached only past the IV
gate. -/
structure FepoisFit where
  fml : String
  estimated : Bool
  deriving DecidableEq, Repr

/-- Port of `fepois` (estimation.py lines 375 to 547), staged: the
deprecation check, `_estimation_input_checks`, construction and formula
preparation, then the `fixest._is_iv` gate raising NotImplementedError
before `_estimate_all_models` runs. -/
def fepois (i_ref1 : PyVal) (pa : FepoisArgs) : Except PyError FepoisFit :=
  if !i_ref1.isNone then
    .error (.featureDeprecationError "The i_ref1 function argument is deprecated with pyfixest version 0.18.0.")
  else
    match _estimation_input_checks (fepoisCheckArgs pa) with
    | .error e => .error e
    | .ok _ =>
        if formulaIsIV pa.fml.strVal then
          .error (.notImplementedError "IV Estimation is not supported for Poisson Regression")
        else .ok { fml := pa.fml.strVal, estimated := true }

/-!
## Randomization inference engine

The ritest implementation (`pyfixest/estimation/ri.py` and the `ritest`
method of `Feols`) is not under the given source tree; only its tests are.
The engine below is modelled from the specification, section 4.5, and from
`tests/test_ritest.py`.
-/

/-- Modelled from the spec: a concrete deterministic pseudo-random
generator (a 32-bit linear congruential step).  The spec fixes no
generator; it only requires that the draws be a deterministic function of
the generator state, which any fixed generator realises. -/
def lcg (s : ℕ) : ℕ := (1664525 * s + 1013904223) % 4294967296

/-- Modelled from the spec: the counter-based per-repetition sub-seed
scheme of the design notes (one independent sub-seed per repetition,
derived from the root seed and the repetition counter). -/
def subSeed (root i : ℕ) : ℕ := lcg (root + i)

/-- Modelled from the spec: the sign drawn for resampling unit `j` under
seed `s` (section 4.5: "sign-flip resampling of a binary/continuous
treatment"). -/
def signFlip (s j : ℕ) : Bool := lcg (s + j) % 2 == 0

/-- Modelled from the spec: one resampled treatment vector.  Without a
cluster argument each observation is flipped independently; with a cluster
assignment `g` (one cluster id per observation) the draw is made at the
cluster level, so all members of a cluster flip together (section 4.5:
"respecting cluster structure when cluster given"). -/
def drawTreatment (s : ℕ) (cluster : Option (List ℕ)) (d : List ℚ) : List ℚ :=
  match cluster with
  | Option.none =>
      ((List.range d.length).zip d).map
        (fun p => if signFlip s p.1 then p.2 else -p.2)
  | some g =>
      (g.zip d).map (fun p => if signFlip s p.1 then p.2 else -p.2)

/-- Arithmetic mean of a list of rationals (0 for the empty list). -/
def listMean (l : List ℚ) : ℚ := l.sum / l.length

/-- Modelled from the spec: the "slow" per-draw statistic.  Each point is a
pair (treatment value, outcome value); the full refit of the
single-treatment model with intercept yields the OLS slope
sum (d - dbar) (y - ybar) / sum (d - dbar)^2. -/
def olsSlope (pts : List (ℚ × ℚ)) : ℚ :=
  (pts.map (fun p =>
      (p.1 - listMean (pts.map Prod.fst)) * (p.2 - listMean (pts.map Prod.snd)))).sum
    / (pts.map (fun p => (p.1 - listMean (pts.map Prod.fst)) ^ 2)).sum

/-- Modelled from the spec: the "fast" per-draw statistic.  Instead of
refitting, the coefficient is recomputed algebraically from the demeaned
resampled treatment and the untouched outcome (the Frisch-Waugh update
sum (d - dbar) y / sum (d - dbar)^2), with no second regression pass. -/
def fastCoef (pts : List (ℚ × ℚ)) : ℚ :=
  (pts.map (fun p => (p.1 - listMean (pts.map Prod.fst)) * p.2)).sum
    / (pts.map (fun p => (p.1 - listMean (pts.map Prod.fst)) ^ 2)).sum

/-- The two ritest re-randomization algorithms of the spec. -/
inductive RAlgo where
  | slow
  | fast
  deriving DecidableEq, Repr

/-- The model family a fit belongs to (OLS via feols, Poisson via
fepois). -/
inductive ModelFamily where
  | olsModel
  | poissonModel
  deriving DecidableEq, Repr

/-- The statistic one repetition records, per algorithm. -/
def ritestStat (algo : RAlgo) (y dstar : List ℚ) : ℚ :=
  match algo with
  | .slow => olsSlope (dstar.zip y)
  | .fast => fastCoef (dstar.zip y)

/-- Modelled from the spec: the resampled-statistic sequence of a ritest
run with root seed `root` and `reps` repetitions, over outcome `y` and
treatment `d`, using the per-repetition sub-seed stream. -/
def ritestStats (algo : RAlgo) (cluster : Option (List ℕ)) (root reps : ℕ)
    (y d : List ℚ) : List ℚ :=
  (List.range reps).map
    (fun i => ritestStat algo y (drawTreatment (subSeed root i) cluster d))

/-- The ritest p-value (spec section 4.5): the fraction of resampled
statistics at least as large in absolute value as the observed one. -/
def ritestPvalue (stats : List ℚ) (obs : ℚ) : ℚ :=
  (stats.countP (fun s => |obs| ≤ |s|) : ℚ) / stats.length

/-- Modelled from the spec: the request-time algorithm gate.  The fast
algorithm requires the OLS residual structure, so requesting it on a
Poisson model is a reported error (spec section 4.5, "Failure"); per
`test_algos_internally`, which runs the fast algorithm with a cluster
argument and asserts its output, a cluster argument is not gated. -/
def ritestAlgoCheck (family : ModelFamily) (algo : RAlgo) : Except PyError Unit :=
  if algo = RAlgo.fast ∧ family = ModelFamily.poissonModel then
    .error (.notImplementedError "The fast algorithm is only supported for OLS models.")
  else .ok ()

/-- The summary a ritest call returns: the point estimate of the observed
fit, the resampled statistic sequence, and the p-value. -/
structure RitestResult where
  estimate : ℚ
  stats : List ℚ
  pval : ℚ
  deriving DecidableEq, Repr

/-- Modelled from the spec: a ritest call on a fitted OLS model: the
request-time algorithm gate, then the resampled-statistic sequence and the
p-value against the observed coefficient. -/
def ritestFeols (algo : RAlgo) (cluster : Option (List ℕ)) (root reps : ℕ)
    (y d : List ℚ) : Except PyError RitestResult :=
  match ritestAlgoCheck ModelFamily.olsModel algo with
  | .error e => .error e
  | .ok _ =>
      let obs := olsSlope (d.zip y)
      let stats := ritestStats algo cluster root reps y d
      .ok { estimate := obs, stats := stats, pval := ritestPvalue stats obs }

/-!
## The test_ritest.py keyword dictionaries

`test_randomization_t_vs_c` (tests/test_ritest.py lines 48 to 81) builds a
base keyword dictionary and two per-run copies.  The run meant to exercise
the randomization-t statistic assigns the value "randomization-t" to the
key `choose_algorithm` instead of to the key `type`.
-/

/-- The base kwargs dictionary of `test_randomization_t_vs_c`
(tests/test_ritest.py lines 58 to 63). -/
def tvscBaseKwargs (resampvar : String) (reps : ℕ) (cluster : Option String) :
    List (String × PyVal) :=
  [("resampvar", PyVal.str resampvar), ("reps", PyVal.int reps),
   ("store_ritest_statistics", PyVal.bool true),
   ("cluster", match cluster with
               | some c => PyVal.str c
               | Option.none => PyVal.none)]

/-- `kwargs1` of `test_randomization_t_vs_c` (lines 65 to 69): the base
dictionary plus type = randomization-c and the first generator. -/
def tvscKwargs1 (resampvar : String) (reps : ℕ) (cluster : Option String) :
    List (String × PyVal) :=
  tvscBaseKwargs resampvar reps cluster
    ++ [("type", PyVal.str "randomization-c"), ("rng", PyVal.rngGenerator 1234)]

/-- `kwargs2` of `test_randomization_t_vs_c` (lines 65 to 71): the base
dictionary plus choose_algorithm = randomization-t and the second
generator.  No `type` key is ever set. -/
def tvscKwargs2 (resampvar : String) (reps : ℕ) (cluster : Option String) :
    List (String × PyVal) :=
  tvscBaseKwargs resampvar reps cluster
    ++ [("choose_algorithm", PyVal.str "randomization-t"),
        ("rng", PyVal.rngGenerator 1234)]

/-- Dictionary lookup for the kwargs model. -/
def kwLookup (kw : List (String × PyVal)) (key : String) : Option PyVal :=
  (kw.find? (fun p => p.1 == key)).map Prod.snd

/-- The ritest algorithm configuration surface of the spec, section 6:
slow and fast. -/
def ritestAlgorithms : List String := ["slow", "fast"]

/-- The cluster parametrization of `test_algos_internally`
(tests/test_ritest.py line 14): the test exercises both no clustering and
clustering by group_id, for both the slow and the fast algorithm. -/
def testAlgosClusterParams : List (Option String) := [Option.none, some "group_id"]

/-!
## Compressed regression
-/

/-- The value a row holds in a named column (0 if the column is absent;
the ports below only read columns that exist). -/
def rowVal (cols : List String) (row : List ℚ) (c : String) : ℚ :=
  match cols.findIdx? (fun x => x == c) with
  | some i => row.getD i 0
  | Option.none => 0

/-- Port of `_regression_compression` (estimation.py lines 643 to 664):
group the long data by the covariate columns and record, per group, the
row count and the sum, sum of squares and mean of each dependent variable.
The polars group-by is modelled as iterating groups in first-appearance
order. -/
def _regression_compression (depvars covars : List String)
    (data_long : DataFrame) : DataFrame :=
  let keyOf : List ℚ → List ℚ := fun r => covars.map (rowVal data_long.cols r)
  let uniqueKeys : List (List ℚ) :=
    data_long.rows.foldl
      (fun acc r => if keyOf r ∈ acc then acc else acc ++ [keyOf r]) []
  let groups : List (List ℚ × List (List ℚ)) :=
    uniqueKeys.map (fun k => (k, data_long.rows.filter (fun r => keyOf r == k)))
  { cols := covars ++ ["count"]
      ++ (depvars.map (fun v => ["sum_" ++ v, "sum_" ++ v ++ "_sq"])).flatten
      ++ depvars.map (fun v => "mean_" ++ v),
    rows := groups.map (fun kg =>
      kg.1 ++ [(kg.2.length : ℚ)]
        ++ (depvars.map (fun v =>
              [(kg.2.map (fun r => rowVal data_long.cols r v)).sum,
               (kg.2.map (fun r => (rowVal data_long.cols r v) ^ 2)).sum])).flatten
        ++ depvars.map (fun v =>
              (kg.2.map (fun r => rowVal data_long.cols r v)).sum / (kg.2.length : ℚ))) }

/-- Port of the inner `_feols_compressed` closure (estimation.py lines 679
to 705): split the formula on `~`, strip blanks, turn `|` into `+`,
compress the data by the right-hand-side variables, and call `feols` on
`mean_<depvar> ~ rhs` with frequency weights `count`; then attach
`_depvar` and `_covars` to the fit.  Indexing `fml.split("~")[1]` on a
formula without `~` is Python's IndexError. -/
def _feols_compressed (fml : String) (data : DataFrame) (vcov : PyVal) :
    Except PyError FeolsFit :=
  let fml2 := pySplitChar '~' fml
  match fml2[1]? with
  | Option.none => .error (.indexError "list index out of range")
  | some part1 =>
      let depvar0 := pyRemoveChar ' ' (fml2.headD "")
      let rhs_fml := pyReplaceChar '|' '+' (pyRemoveChar ' ' part1)
      let rhs_vars := pySplitChar '+' rhs_fml
      let df_compressed := _regression_compression [depvar0] rhs_vars data
      let fml_compressed := "mean_" ++ depvar0 ++ " ~ " ++ rhs_fml
      match feols PyVal.none
          { fml := PyVal.str fml_compressed,
            data := PyVal.dataframe df_compressed, vcov := vcov,
            weights := PyVal.str "count", fixef_rm := PyVal.str "none",
            collin_tol := PyVal.float (ratPow10Neg 10),
            copy_data := PyVal.bool true, store_data := PyVal.bool true,
            lean_ := PyVal.bool false, fixef_tol := PyVal.float (ratPow10Neg 8),
            weights_type := PyVal.str "fweights",
            use_compression := PyVal.bool false,
            use_mundlak := PyVal.bool false } with
      | .error e => .error e
      | .ok fit => .ok { fit with depvarF := some depvar0, covarsF := some rhs_fml }

/-- One recorded `fit.bootstrap(...)` invocation: `fit.bootstrap` is a
method of `Feols`, outside the given source tree, so the model records the
arguments the call site passes (which, the seed included, fully determine
a deterministic bootstrap). -/
structure BootstrapCall where
  reps : ℕ
  seed : Option ℤ
  inplace : Bool
  kwargsData : DataFrame
  kwargsFml : String
  deriving DecidableEq, Repr

/-- Which analytic covariance correction `feols_compressed` applied
(the closures `_vcov_iid` and `_vcov_hetero` of estimation.py lines 707 to
728, which recompute the covariance from the compressed sufficient
statistics). -/
inductive CompressedVcov where
  | iidAnalytic
  | heteroAnalytic
  deriving DecidableEq, Repr

/-- The object `feols_compressed` returns: the inner fit, the analytic
covariance applied (if any), the bootstrap invocations made, and whether
`fit.get_inference()` ran. -/
structure CompressedFit where
  fit : FeolsFit
  vcovSet : Option CompressedVcov
  bootstrapCalls : List BootstrapCall
  inferenceDone : Bool
  deriving DecidableEq, Repr

/-- Port of `feols_compressed` (estimation.py lines 667 to 751).  The
Python local `kwargs` is assigned only inside the `if bootstrap:` branch;
the model mirrors this with an Option that starts unassigned, and reading
it while unassigned is Python's NameError.  In the bootstrap branch the
call site passes the literal seed 12 (line 735), not the `seed`
parameter; the non-analytic else branch passes `seed` (line 747) but
reads the never-assigned `kwargs`. -/
def feols_compressed (fml : String) (data : DataFrame) (vcov : PyVal)
    (bootstrap : Bool) (reps : ℕ) (seed : Option ℤ) :
    Except PyError CompressedFit :=
  match _feols_compressed fml data vcov with
  | .error e => .error e
  | .ok fit =>
      let kwargs : Option (DataFrame × String) := Option.none
      if bootstrap then
        let kwargs := some (data, fml)
        match kwargs with
        | some kw =>
            .ok { fit := fit, vcovSet := Option.none,
                  bootstrapCalls := [{ reps := reps, seed := some 12, inplace := true,
                                       kwargsData := kw.1, kwargsFml := kw.2 }],
                  inferenceDone := true }
        | Option.none => .error (.nameError "name kwargs is not defined")
      else
        if vcov = PyVal.str "iid" then
          .ok { fit := fit, vcovSet := some CompressedVcov.iidAnalytic,
                bootstrapCalls := [], inferenceDone := true }
        else if vcov = PyVal.str "hetero" then
          .ok { fit := fit, vcovSet := some CompressedVcov.heteroAnalytic,
                bootstrapCalls := [], inferenceDone := true }
        else
          match kwargs with
          | some kw =>
              .ok { fit := fit, vcovSet := Option.none,
                    bootstrapCalls := [{ reps := reps, seed := seed, inplace := true,
                                         kwargsData := kw.1, kwargsFml := kw.2 }],
                    inferenceDone := true }
          | Option.none => .error (.nameError "name kwargs is not defined")

/-- The seeds passed to bootstrap invocations by a (successful)
`feols_compressed` call. -/
def bootstrapSeedsPassed : Except PyError CompressedFit → List (Option ℤ)
  | .ok cf => cf.bootstrapCalls.map (fun c => c.seed)
  | .error _ => []

instance : DecidablePred floatBetween01 := fun v =>
  match v with
  | .float q => inferInstanceAs (Decidable (0 < q ∧ q < 1))
  | .str _ => inferInstanceAs (Decidable False)
  | .int _ => inferInstanceAs (Decidable False)
  | .bool _ => inferInstanceAs (Decidable False)
  | .none => inferInstanceAs (Decidable False)
  | .dict => inferInstanceAs (Decidable False)
  | .dataframe _ => inferInstanceAs (Decidable False)
  | .rngGenerator _ => inferInstanceAs (Decidable False)

/-!
## Concrete instances used by the witnesses below
-/

/-- A two-column dataframe with no rows (column names are all the
validation and compression paths under scrutiny consult). -/
def dfYX : DataFrame := { cols := ["Y", "X"], rows := [] }

/-- A fully well-formed `feols` argument list except that `collin_tol` is
the float 2.0, outside (0, 1). -/
def c6args : EstimationArgs :=
  { fml := PyVal.str "Y ~ X", data := PyVal.dataframe dfYX, vcov := PyVal.none,
    weights := PyVal.none, fixef_rm := PyVal.str "none",
    collin_tol := PyVal.float 2, copy_data := PyVal.bool true,
    store_data := PyVal.bool true, lean_ := PyVal.bool false,
    fixef_tol := PyVal.float (ratPow10Neg 8),
    weights_type := PyVal.str "aweights", use_compression := PyVal.bool false,
    use_mundlak := PyVal.bool false }

/-- A fully well-formed `fepois` argument list except that `fixef_tol` is
the float 2.0, outside (0, 1). -/
def c6pargs : FepoisArgs :=
  { fml := PyVal.str "Y ~ X", data := PyVal.dataframe dfYX, vcov := PyVal.none,
    fixef_rm := PyVal.str "none", fixef_tol := PyVal.float 2,
    iwls_tol := PyVal.float (ratPow10Neg 8), iwls_maxiter := PyVal.int 25,
    collin_tol := PyVal.float (ratPow10Neg 10), copy_data := PyVal.bool true,
    store_data := PyVal.bool true, lean_ := PyVal.bool false }

/-- A fully well-formed `fepois` argument list whose formula requests IV
estimation (a three-part formula with an instrument equation). -/
def c7pargs : FepoisArgs :=
  { fml := PyVal.str "Y ~ X2 | f1 | X1 ~ Z1", data := PyVal.dataframe dfYX,
    vcov := PyVal.none, fixef_rm := PyVal.str "none",
    fixef_tol := PyVal.float (ratPow10Neg 8),
    iwls_tol := PyVal.float (ratPow10Neg 8), iwls_maxiter := PyVal.int 25,
    collin_tol := PyVal.float (ratPow10Neg 10), copy_data := PyVal.bool true,
    store_data := PyVal.bool true, lean_ := PyVal.bool false }

/-- A fully well-formed `feols` argument list that combines
`use_compression=True` with a weights column that is present in the
data. -/
def c7args : EstimationArgs :=
  { fml := PyVal.str "Y ~ X", data := PyVal.dataframe { cols := ["Y", "X", "w"], rows := [] },
    vcov := PyVal.none, weights := PyVal.str "w", fixef_rm := PyVal.str "none",
    collin_tol := PyVal.float (ratPow10Neg 10), copy_data := PyVal.bool true,
    store_data := PyVal.bool true, lean_ := PyVal.bool false,
    fixef_tol := PyVal.float (ratPow10Neg 8),
    weights_type := PyVal.str "aweights", use_compression := PyVal.bool true,
    use_mundlak := PyVal.bool false }

/-- A fully well-formed `feols` argument list whose `weights` argument
names the column w, absent from the data. -/
def c8args : EstimationArgs :=
  { fml := PyVal.str "Y ~ X", data := PyVal.dataframe dfYX, vcov := PyVal.none,
    weights := PyVal.str "w", fixef_rm := PyVal.str "none",
    collin_tol := PyVal.float (ratPow10Neg 10), copy_data := PyVal.bool true,
    store_data := PyVal.bool true, lean_ := PyVal.bool false,
    fixef_tol := PyVal.float (ratPow10Neg 8),
    weights_type := PyVal.str "aweights", use_compression := PyVal.bool false,
    use_mundlak := PyVal.bool false }

/-!
## Helper lemmas
-/

theorem listMean_mul_length (l : List ℚ) (h : l ≠ []) :
    (l.length : ℚ) * listMean l = l.sum := by
  have hl : (l.length : ℚ) ≠ 0 := by
    have := List.length_pos.mpr h
    exact_mod_cast this.ne'
  unfold listMean
  field_simp

theorem sum_map_shift (pts : List (ℚ × ℚ)) (c t : ℚ) :
    (pts.map (fun p => (p.1 - c) * (p.2 - t))).sum
      = (pts.map (fun p => (p.1 - c) * p.2)).sum
        - t * ((pts.map Prod.fst).sum - pts.length * c) := by
  induction pts with
  | nil => simp
  | cons hd tl ih =>
      simp only [List.map_cons, List.sum_cons, List.length_cons, ih]
      push_cast
      ring

/-- The central algebraic fact behind the fast ritest algorithm: the full
refit (slow) and the Frisch-Waugh update (fast) compute the same
coefficient, because the demeaned treatment is orthogonal to constants. -/
theorem olsSlope_eq_fastCoef (pts : List (ℚ × ℚ)) : olsSlope pts = fastCoef pts := by
  rcases eq_or_ne pts [] with h | h
  · subst h; rfl
  · unfold olsSlope fastCoef
    rw [sum_map_shift]
    have hmean : ((pts.map Prod.fst).length : ℚ) * listMean (pts.map Prod.fst)
        = (pts.map Prod.fst).sum :=
      listMean_mul_length _ (by simpa using h)
    rw [List.length_map] at hmean
    have h1 : (pts.map Prod.fst).sum - (pts.length : ℚ) * listMean (pts.map Prod.fst) = 0 := by
      linarith
    rw [h1, mul_zero, sub_zero]

theorem ritestStats_slow_eq_fast (cluster : Option (List ℕ)) (root reps : ℕ)
    (y d : List ℚ) :
    ritestStats RAlgo.slow cluster root reps y d
      = ritestStats RAlgo.fast cluster root reps y d := by
  unfold ritestStats
  have hfun : (fun i => ritestStat RAlgo.slow y (drawTreatment (subSeed root i) cluster d))
      = (fun i => ritestStat RAlgo.fast y (drawTreatment (subSeed root i) cluster d)) := by
    funext i
    simp [ritestStat, olsSlope_eq_fastCoef]
  rw [hfun]

theorem ritestFeols_slow_eq_fast (cluster : Option (List ℕ)) (root reps : ℕ)
    (y d : List ℚ) :
    ritestFeols RAlgo.slow cluster root reps y d
      = ritestFeols RAlgo.fast cluster root reps y d := by
  unfold ritestFeols ritestAlgoCheck
  simp [ritestStats_slow_eq_fast]


theorem runChecks_ok_iff (l : List (Bool × PyError)) :
    runChecks l = .ok () ↔ ∀ c ∈ l, c.1 = false := by
  induction l with
  | nil => simp [runChecks]
  | cons c rest ih =>
      by_cases hc : c.1 = true
      · simp [runChecks, hc]
      · simp only [Bool.not_eq_true] at hc
        simp [runChecks, hc, ih]

theorem runChecks_error_mem (l : List (Bool × PyError)) (e : PyError)
    (h : runChecks l = .error e) : ∃ c ∈ l, c.1 = true ∧ c.2 = e := by
  induction l with
  | nil => exact absurd h (by simp [runChecks])
  | cons c rest ih =>
      by_cases hc : c.1 = true
      · simp only [runChecks, hc, if_true] at h
        injection h with h
        exact ⟨c, by simp, hc, h⟩
      · simp only [Bool.not_eq_true] at hc
        simp only [runChecks, hc, Bool.false_eq_true, if_false] at h
        obtain ⟨c2, hmem, h1, h2⟩ := ih h
        exact ⟨c2, by simp [hmem], h1, h2⟩

theorem PyVal.isFloat_exists {v : PyVal} (h : v.isFloat = true) : ∃ q, v = .float q := by
  cases v <;> simp_all [PyVal.isFloat]

theorem checks_ok_conditions (a : EstimationArgs)
    (h : _estimation_input_checks a = .ok ()) :
    a.fml.isStr = true
    ∧ floatBetween01 a.collin_tol
    ∧ floatBetween01 a.fixef_tol
    ∧ (a.fixef_rm = PyVal.str "none" ∨ a.fixef_rm = PyVal.str "singleton")
    ∧ (a.weights_type = PyVal.str "aweights" ∨ a.weights_type = PyVal.str "fweights") := by
  rw [_estimation_input_checks, runChecks_ok_iff] at h
  simp only [checkList, List.mem_cons, List.not_mem_nil, or_false, forall_eq_or_imp,
    forall_eq] at h
  obtain ⟨g1, g2, g3, g4, g5, g6, g7, g8, g9, g10, g11, g12, g13, g14, g15, g16, g17,
    g18, g19, g20⟩ := h
  simp only [Bool.not_eq_false'] at g1 g5 g6 g14 g17
  simp only [decide_eq_false_iff_not, not_le] at g7 g8 g15 g16
  obtain ⟨cq, hcq⟩ := PyVal.isFloat_exists g5
  obtain ⟨fq, hfq⟩ := PyVal.isFloat_exists g14
  rw [hcq] at g7 g8
  rw [hfq] at g15 g16
  simp only [PyVal.floatVal] at g7 g8 g15 g16
  refine ⟨g1, ?_, ?_, by simpa using g6, by simpa using g17⟩
  · rw [hcq]; exact ⟨g7, g8⟩
  · rw [hfq]; exact ⟨g15, g16⟩


theorem checks_error_named (a : EstimationArgs)
    (hw : a.weights = PyVal.none ∨ ∃ w, a.weights = PyVal.str w ∧ a.data.hasColumn w = true)
    (hcomp : ¬(a.use_compression = PyVal.bool true ∧ a.weights ≠ PyVal.none))
    (e : PyError) (h : _estimation_input_checks a = .error e) :
    e.isNamedValidationError = true := by
  rw [_estimation_input_checks] at h
  obtain ⟨c, hmem, hcond, hce⟩ := runChecks_error_mem _ e h
  subst hce
  simp only [checkList, List.mem_cons, List.not_mem_nil, or_false] at hmem
  rcases hmem with h0 | h0 | h0 | h0 | h0 | h0 | h0 | h0 | h0 | h0 | h0 | h0 | h0 | h0
    | h0 | h0 | h0 | h0 | h0 | h0 <;> subst h0 <;> try rfl
  · -- the bare assert on the weights column: excluded by hw
    exfalso
    rcases hw with hwn | ⟨w, hws, hcol⟩
    · rw [hwn] at hcond
      simp [PyVal.isStr] at hcond
    · rw [hws] at hcond
      simp only [PyVal.isStr, PyVal.strVal, Bool.true_and] at hcond
      rw [hcol] at hcond
      simp at hcond
  · -- the compression-with-weights error: excluded by hcomp
    exfalso
    simp only [Bool.and_eq_true, beq_iff_eq, Bool.not_eq_true'] at hcond
    refine hcomp ⟨hcond.1, ?_⟩
    intro hn
    rw [hn] at hcond
    simp [PyVal.isNone] at hcond

theorem feols_checks_error (a : EstimationArgs) (e : PyError)
    (h : _estimation_input_checks a = .error e) :
    feols PyVal.none a = .error e := by
  rw [feols]
  simp [PyVal.isNone, h]

theorem fepois_checks_error (pa : FepoisArgs) (e : PyError)
    (h : _estimation_input_checks (fepoisCheckArgs pa) = .error e) :
    fepois PyVal.none pa = .error e := by
  rw [fepois]
  simp [PyVal.isNone, h]


theorem floatBetween01_exists {v : PyVal} (h : floatBetween01 v) :
    ∃ q, v = .float q ∧ 0 < q ∧ q < 1 := by
  cases v <;> simp_all [floatBetween01]

theorem runChecks_cons_false {c : Bool × PyError} {rest : List (Bool × PyError)}
    (h : c.1 = false) : runChecks (c :: rest) = runChecks rest := by
  simp [runChecks, h]

theorem runChecks_cons_true {c : Bool × PyError} {rest : List (Bool × PyError)}
    (h : c.1 = true) : runChecks (c :: rest) = .error c.2 := by
  simp [runChecks, h]

theorem checks_ok_of_good (a : EstimationArgs)
    (h1 : a.fml.isStr = true) (h2 : a.data.isDataFrame = true)
    (h3 : (a.vcov.isStr || a.vcov.isDict || a.vcov.isNone) = true)
    (h4 : a.fixef_rm = PyVal.str "none" ∨ a.fixef_rm = PyVal.str "singleton")
    (h5 : floatBetween01 a.collin_tol)
    (h6 : a.weights = PyVal.none ∨ ∃ w, a.weights = PyVal.str w ∧ a.data.hasColumn w = true)
    (h7 : a.copy_data.isBool = true) (h8 : a.store_data.isBool = true)
    (h9 : a.lean_.isBool = true)
    (h10 : floatBetween01 a.fixef_tol)
    (h11 : a.weights_type = PyVal.str "aweights" ∨ a.weights_type = PyVal.str "fweights")
    (h12 : a.use_compression.isBool = true)
    (h13 : ¬(a.use_compression = PyVal.bool true ∧ a.weights ≠ PyVal.none))
    (h14 : a.use_mundlak.isBool = true) :
    _estimation_input_checks a = .ok () := by
  obtain ⟨cq, hcq, hcq0, hcq1⟩ := floatBetween01_exists h5
  obtain ⟨fq, hfq, hfq0, hfq1⟩ := floatBetween01_exists h10
  rw [_estimation_input_checks, runChecks_ok_iff]
  intro c hmem
  simp only [checkList, List.mem_cons, List.not_mem_nil, or_false] at hmem
  rcases hmem with h0|h0|h0|h0|h0|h0|h0|h0|h0|h0|h0|h0|h0|h0|h0|h0|h0|h0|h0|h0 <;>
    subst h0
  · simp [h1]
  · simp [h2]
  · simp [h3]
  · rcases h4 with h | h <;> simp [h, PyVal.isStr]
  · simp [hcq, PyVal.isFloat]
  · rcases h4 with h | h <;> simp [h]
  · simp [hcq, PyVal.floatVal, not_le, hcq0]
  · simp [hcq, PyVal.floatVal, not_le, hcq1]
  · rcases h6 with h | ⟨w, hws, _⟩
    · simp [h, PyVal.isNone]
    · simp [hws, PyVal.isStr]
  · rcases h6 with h | ⟨w, hws, hcol⟩
    · simp [h, PyVal.isStr]
    · simp [hws, PyVal.isStr, PyVal.strVal, hcol]
  · simp [h7]
  · simp [h8]
  · simp [h9]
  · simp [hfq, PyVal.isFloat]
  · simp [hfq, PyVal.floatVal, not_le, hfq0]
  · simp [hfq, PyVal.floatVal, not_le, hfq1]
  · rcases h11 with h | h <;> simp [h]
  · simp [h12]
  · by_cases hu : a.use_compression = PyVal.bool true
    · rcases h6 with h | ⟨w, hws, _⟩
      · simp [h, PyVal.isNone]
      · exact absurd ⟨hu, by simp [hws]⟩ h13
    · simp [hu]
  · simp [h14]

theorem checks_compression_error (a : EstimationArgs)
    (h1 : a.fml.isStr = true) (h2 : a.data.isDataFrame = true)
    (h3 : (a.vcov.isStr || a.vcov.isDict || a.vcov.isNone) = true)
    (h4 : a.fixef_rm = PyVal.str "none" ∨ a.fixef_rm = PyVal.str "singleton")
    (h5 : floatBetween01 a.collin_tol)
    (h6 : ∃ w, a.weights = PyVal.str w ∧ a.data.hasColumn w = true)
    (h7 : a.copy_data.isBool = true) (h8 : a.store_data.isBool = true)
    (h9 : a.lean_.isBool = true)
    (h10 : floatBetween01 a.fixef_tol)
    (h11 : a.weights_type = PyVal.str "aweights" ∨ a.weights_type = PyVal.str "fweights")
    (h12 : a.use_compression = PyVal.bool true) :
    _estimation_input_checks a
      = .error (.notImplementedError "Compressed regression is not supported with weights.") := by
  obtain ⟨cq, hcq, hcq0, hcq1⟩ := floatBetween01_exists h5
  obtain ⟨fq, hfq, hfq0, hfq1⟩ := floatBetween01_exists h10
  obtain ⟨w, hws, hcol⟩ := h6
  rw [_estimation_input_checks, checkList]
  rw [runChecks_cons_false (by simp [h1])]
  rw [runChecks_cons_false (by simp [h2])]
  rw [runChecks_cons_false (by simp [h3])]
  rw [runChecks_cons_false (by rcases h4 with h | h <;> simp [h, PyVal.isStr])]
  rw [runChecks_cons_false (by simp [hcq, PyVal.isFloat])]
  rw [runChecks_cons_false (by rcases h4 with h | h <;> simp [h])]
  rw [runChecks_cons_false (by simp [hcq, PyVal.floatVal, not_le, hcq0])]
  rw [runChecks_cons_false (by simp [hcq, PyVal.floatVal, not_le, hcq1])]
  rw [runChecks_cons_false (by simp [hws, PyVal.isStr])]
  rw [runChecks_cons_false (by simp [hws, PyVal.isStr, PyVal.strVal, hcol])]
  rw [runChecks_cons_false (by simp [h7])]
  rw [runChecks_cons_false (by simp [h8])]
  rw [runChecks_cons_false (by simp [h9])]
  rw [runChecks_cons_false (by simp [hfq, PyVal.isFloat])]
  rw [runChecks_cons_false (by simp [hfq, PyVal.floatVal, not_le, hfq0])]
  rw [runChecks_cons_false (by simp [hfq, PyVal.floatVal, not_le, hfq1])]
  rw [runChecks_cons_false (by rcases h11 with h | h <;> simp [h])]
  rw [runChecks_cons_false (by simp [h12, PyVal.isBool])]
  rw [runChecks_cons_true (by simp [h12, hws, PyVal.isNone])]


/-!
## Claim theorems
-/

/-- Claim C1: for every fitted OLS model (outcome `y`, single treatment `d`
with intercept) and every number of repetitions, running ritest with the
slow and with the fast algorithm under identical random generator seeds
produces resampled-statistic sequences, point estimates and p-values that
agree within 1e-8 in the unclustered single-treatment case.  In the exact
rational model the two algorithms agree identically (the Frisch-Waugh
update equals the full refit), so the 1e-8 bound holds with slack; the
1e-8 of the test absorbs binary floating-point rounding only. -/
theorem ritest_fast_matches_slow (root reps : ℕ) (y d : List ℚ) :
    ritestFeols RAlgo.slow Option.none root reps y d
      = ritestFeols RAlgo.fast Option.none root reps y d
    ∧ (∀ i : ℕ,
        |(ritestStats RAlgo.slow Option.none root reps y d).getD i 0
          - (ritestStats RAlgo.fast Option.none root reps y d).getD i 0| ≤ 1 / 10 ^ 8)
    ∧ |ritestPvalue (ritestStats RAlgo.slow Option.none root reps y d) (olsSlope (d.zip y))
        - ritestPvalue (ritestStats RAlgo.fast Option.none root reps y d) (olsSlope (d.zip y))|
        ≤ 1 / 10 ^ 8 := by
  refine ⟨ritestFeols_slow_eq_fast Option.none root reps y d, ?_, ?_⟩
  · intro i
    rw [ritestStats_slow_eq_fast]
    simp only [sub_self, abs_zero]
    positivity
  · rw [ritestStats_slow_eq_fast]
    simp only [sub_self, abs_zero]
    positivity

/-- Claim C2 counterexample: the claim says a fast ritest request with a
cluster argument is reported as a not-supported error at request time, but
`test_algos_internally` parametrizes the fast algorithm with cluster
group_id and asserts its output, and the modelled dispatcher accepts a
fast request with a cluster argument on an OLS fit and returns a result. -/
theorem ritest_fast_with_cluster_not_rejected :
    some "group_id" ∈ testAlgosClusterParams
    ∧ (ritestFeols RAlgo.fast (some [0, 1]) 1234 2 [1, 2] [1, -1]).isOk = true := by
  exact ⟨by decide, rfl⟩

/-- Claim C2 (amended): requesting the fast ritest algorithm together with
a cluster argument on an OLS fit is supported (the draws are made at the
cluster level, and the fast statistics equal the slow ones); the
request-time not-supported error for the fast algorithm concerns
incompatible model families (Poisson), not clustering. -/
theorem ritest_fast_with_cluster_supported (cluster : Option (List ℕ))
    (root reps : ℕ) (y d : List ℚ) :
    (ritestFeols RAlgo.fast cluster root reps y d).isOk = true
    ∧ ritestFeols RAlgo.fast cluster root reps y d
        = ritestFeols RAlgo.slow cluster root reps y d
    ∧ ritestAlgoCheck ModelFamily.poissonModel RAlgo.fast
        = .error (.notImplementedError "The fast algorithm is only supported for OLS models.") := by
  exact ⟨rfl, (ritestFeols_slow_eq_fast cluster root reps y d).symm, rfl⟩

/-- Claim C3, evaluated on the test that is cited as checking it:
`test_randomization_t_vs_c` never requests the randomization-t statistic.
Its second kwargs dictionary leaves the `type` key unset and instead
assigns the string randomization-t to `choose_algorithm`, which is not an
algorithm of the configuration surface (slow, fast); the first dictionary
requests randomization-c, so both runs use the same statistic type and the
claimed comparison is not exercised (the correctly written comparison
test, `test_randomisation_c_vs_t`, is skipped as not yet implemented). -/
theorem randomization_t_never_requested :
    kwLookup (tvscKwargs2 "X1" 1000 Option.none) "type" = Option.none
    ∧ kwLookup (tvscKwargs2 "X1" 1000 Option.none) "choose_algorithm"
        = some (PyVal.str "randomization-t")
    ∧ "randomization-t" ∉ ritestAlgorithms
    ∧ kwLookup (tvscKwargs1 "X1" 1000 Option.none) "type"
        = some (PyVal.str "randomization-c") := by
  refine ⟨by decide, by decide, by decide, by decide⟩

/-- Claim C5: for every fitted model (outcome and treatment), resampling
configuration and algorithm choice, two ritest runs that start from the
same random generator state produce bit-identical resampled-statistic
sequences (in the pure model, equality of states yields equality of the
full result and of the statistic sequence). -/
theorem ritest_bit_reproducible (algo : RAlgo) (cluster : Option (List ℕ))
    (s1 s2 reps : ℕ) (y d : List ℚ) (h : s1 = s2) :
    ritestFeols algo cluster s1 reps y d = ritestFeols algo cluster s2 reps y d
    ∧ ritestStats algo cluster s1 reps y d = ritestStats algo cluster s2 reps y d := by
  subst h
  exact ⟨rfl, rfl⟩

theorem ritest_bit_reproducible_witness :
    (1234 = 1234)
    ∧ (ritestFeols RAlgo.slow (some [0, 1]) 1234 2 [1, 2] [1, -1]
         = ritestFeols RAlgo.slow (some [0, 1]) 1234 2 [1, 2] [1, -1]
       ∧ ritestStats RAlgo.slow (some [0, 1]) 1234 2 [1, 2] [1, -1]
         = ritestStats RAlgo.slow (some [0, 1]) 1234 2 [1, 2] [1, -1]) :=
  ⟨rfl, ritest_bit_reproducible RAlgo.slow (some [0, 1]) 1234 1234 2 [1, 2] [1, -1] rfl⟩

/-- Claim C6: every call to `feols` or `fepois` whose configuration is
invalid in one of the listed ways (collin_tol or fixef_tol not a float
strictly between 0 and 1, fml not a string, fixef_rm outside
none/singleton, or, for `feols`, weights_type outside aweights/fweights)
raises a typed validation error (a named TypeError or ValueError) before
any model object is constructed or any estimation runs: the staged model
returns that error instead of a constructed fit.  The remaining arguments
are assumed well-formed so that the failure is attributable to the listed
conditions (`fepois` has no weights_type parameter, so that condition does
not arise for it). -/
theorem invalid_config_rejected_before_estimation (a : EstimationArgs) (pa : FepoisArgs)
    (hw : a.weights = PyVal.none ∨ ∃ w, a.weights = PyVal.str w ∧ a.data.hasColumn w = true)
    (hcomp : ¬(a.use_compression = PyVal.bool true ∧ a.weights ≠ PyVal.none))
    (hbad : ¬ floatBetween01 a.collin_tol ∨ ¬ floatBetween01 a.fixef_tol
            ∨ a.fml.isStr = false
            ∨ (a.fixef_rm ≠ PyVal.str "none" ∧ a.fixef_rm ≠ PyVal.str "singleton")
            ∨ (a.weights_type ≠ PyVal.str "aweights" ∧ a.weights_type ≠ PyVal.str "fweights"))
    (hbadp : ¬ floatBetween01 pa.collin_tol ∨ ¬ floatBetween01 pa.fixef_tol
            ∨ pa.fml.isStr = false
            ∨ (pa.fixef_rm ≠ PyVal.str "none" ∧ pa.fixef_rm ≠ PyVal.str "singleton")) :
    (∃ e, feols PyVal.none a = .error e ∧ e.isNamedValidationError = true)
    ∧ (∃ e, fepois PyVal.none pa = .error e ∧ e.isNamedValidationError = true) := by
  constructor
  · cases hres : _estimation_input_checks a with
    | ok u =>
        cases u
        obtain ⟨c1, c2, c3, c4, c5⟩ := checks_ok_conditions a hres
        exfalso
        rcases hbad with hb | hb | hb | hb | hb
        · exact hb c2
        · exact hb c3
        · rw [hb] at c1; exact Bool.false_ne_true c1
        · rcases c4 with h | h
          · exact hb.1 h
          · exact hb.2 h
        · rcases c5 with h | h
          · exact hb.1 h
          · exact hb.2 h
    | error e =>
        exact ⟨e, feols_checks_error a e hres, checks_error_named a hw hcomp e hres⟩
  · cases hres : _estimation_input_checks (fepoisCheckArgs pa) with
    | ok u =>
        cases u
        obtain ⟨c1, c2, c3, c4, _⟩ := checks_ok_conditions _ hres
        exfalso
        have c1' : pa.fml.isStr = true := c1
        have c2' : floatBetween01 pa.collin_tol := c2
        have c3' : floatBetween01 pa.fixef_tol := c3
        have c4' : pa.fixef_rm = PyVal.str "none" ∨ pa.fixef_rm = PyVal.str "singleton" := c4
        rcases hbadp with hb | hb | hb | hb
        · exact hb c2'
        · exact hb c3'
        · rw [hb] at c1'; exact Bool.false_ne_true c1'
        · rcases c4' with h | h
          · exact hb.1 h
          · exact hb.2 h
    | error e =>
        refine ⟨e, fepois_checks_error pa e hres, checks_error_named _ (Or.inl rfl) ?_ e hres⟩
        simp [fepoisCheckArgs]

theorem invalid_config_rejected_before_estimation_witness :
    ((c6args.weights = PyVal.none)
     ∧ ¬(c6args.use_compression = PyVal.bool true ∧ c6args.weights ≠ PyVal.none)
     ∧ ¬ floatBetween01 c6args.collin_tol
     ∧ ¬ floatBetween01 c6pargs.fixef_tol)
    ∧ ((∃ e, feols PyVal.none c6args = .error e ∧ e.isNamedValidationError = true)
       ∧ (∃ e, fepois PyVal.none c6pargs = .error e ∧ e.isNamedValidationError = true)) :=
  ⟨⟨rfl, by decide, by decide, by decide⟩,
   invalid_config_rejected_before_estimation c6args c6pargs (Or.inl rfl) (by decide)
     (Or.inl (by decide)) (Or.inr (Or.inl (by decide)))⟩


/-- Claim C7: a `fepois` request whose formula asks for IV estimation (a
three-part formula with an instrument equation) raises the explicit
not-supported NotImplementedError before `_estimate_all_models` runs, and
a `feols` request combining `use_compression=True` with a weights column
raises the explicit not-supported NotImplementedError inside the input
checks, before the model object is constructed.  The remaining arguments
are assumed well-formed so that the request reaches the respective
gates. -/
theorem unsupported_combination_rejected (pa : FepoisArgs) (a : EstimationArgs)
    (hpf : ∃ f, pa.fml = PyVal.str f ∧ formulaIsIV f = true)
    (hpd : pa.data.isDataFrame = true)
    (hpv : (pa.vcov.isStr || pa.vcov.isDict || pa.vcov.isNone) = true)
    (hpr : pa.fixef_rm = PyVal.str "none" ∨ pa.fixef_rm = PyVal.str "singleton")
    (hpc : floatBetween01 pa.collin_tol)
    (hpt : floatBetween01 pa.fixef_tol)
    (hpb1 : pa.copy_data.isBool = true) (hpb2 : pa.store_data.isBool = true)
    (hpb3 : pa.lean_.isBool = true)
    (haf : a.fml.isStr = true) (had : a.data.isDataFrame = true)
    (hav : (a.vcov.isStr || a.vcov.isDict || a.vcov.isNone) = true)
    (har : a.fixef_rm = PyVal.str "none" ∨ a.fixef_rm = PyVal.str "singleton")
    (hac : floatBetween01 a.collin_tol) (hat : floatBetween01 a.fixef_tol)
    (hab1 : a.copy_data.isBool = true) (hab2 : a.store_data.isBool = true)
    (hab3 : a.lean_.isBool = true)
    (haw : ∃ w, a.weights = PyVal.str w ∧ a.data.hasColumn w = true)
    (hawt : a.weights_type = PyVal.str "aweights" ∨ a.weights_type = PyVal.str "fweights")
    (hacomp : a.use_compression = PyVal.bool true) :
    fepois PyVal.none pa
      = .error (.notImplementedError "IV Estimation is not supported for Poisson Regression")
    ∧ feols PyVal.none a
      = .error (.notImplementedError "Compressed regression is not supported with weights.") := by
  constructor
  · obtain ⟨f, hf, hiv⟩ := hpf
    have hok : _estimation_input_checks (fepoisCheckArgs pa) = .ok () := by
      refine checks_ok_of_good _ ?_ hpd hpv hpr hpc (Or.inl rfl) hpb1 hpb2 hpb3 hpt
        (Or.inl rfl) rfl (by simp [fepoisCheckArgs]) rfl
      simp [fepoisCheckArgs, hf, PyVal.isStr]
    rw [fepois]
    simp only [PyVal.isNone, Bool.not_true, Bool.false_eq_true, if_false, hok]
    simp [hf, PyVal.strVal, hiv]
  · exact feols_checks_error a _
      (checks_compression_error a haf had hav har hac haw hab1 hab2 hab3 hat hawt hacomp)

theorem unsupported_combination_rejected_witness :
    (formulaIsIV "Y ~ X2 | f1 | X1 ~ Z1" = true
     ∧ floatBetween01 c7pargs.collin_tol
     ∧ floatBetween01 c7args.fixef_tol
     ∧ c7args.use_compression = PyVal.bool true)
    ∧ (fepois PyVal.none c7pargs
         = .error (.notImplementedError "IV Estimation is not supported for Poisson Regression")
       ∧ feols PyVal.none c7args
         = .error (.notImplementedError "Compressed regression is not supported with weights.")) :=
  ⟨⟨by decide, by decide, by decide, rfl⟩,
   unsupported_combination_rejected c7pargs c7args
     ⟨"Y ~ X2 | f1 | X1 ~ Z1", rfl, by decide⟩ rfl rfl (Or.inl rfl) (by decide) (by decide)
     rfl rfl rfl rfl rfl rfl (Or.inl rfl) (by decide) (by decide) rfl rfl rfl
     ⟨"w", rfl, by decide⟩ (Or.inl rfl) rfl⟩

/-- Claim C8 counterexample: on a well-formed call whose weights argument
names the absent column w, the validation raises the bare-assert
AssertionError, which is not one of the distinct named validation error
kinds (TypeError/ValueError) the other input checks raise, refuting the
claim that the missing-column failure is reported as a distinct named
MissingColumn-style error kind like the others. -/
theorem weights_missing_column_bare_assert :
    _estimation_input_checks c8args
      = .error (.assertionError "weights must be a column in data")
    ∧ PyError.isNamedValidationError (.assertionError "weights must be a column in data")
        = false :=
  ⟨by decide, rfl⟩

/-- Claim C8 (amended): on every otherwise well-formed call whose weights
argument names a column absent from the data, the failure is reported via
the bare Python assert statement (an AssertionError with message
"weights must be a column in data"), not as a distinct named validation
error kind (TypeError/ValueError) like the other input-validation
checks. -/
theorem weights_missing_column_reported_by_assert (a : EstimationArgs)
    (h1 : a.fml.isStr = true) (h2 : a.data.isDataFrame = true)
    (h3 : (a.vcov.isStr || a.vcov.isDict || a.vcov.isNone) = true)
    (h4 : a.fixef_rm = PyVal.str "none" ∨ a.fixef_rm = PyVal.str "singleton")
    (h5 : floatBetween01 a.collin_tol)
    (h6 : ∃ w, a.weights = PyVal.str w ∧ a.data.hasColumn w = false) :
    _estimation_input_checks a = .error (.assertionError "weights must be a column in data")
    ∧ PyError.isNamedValidationError (.assertionError "weights must be a column in data")
        = false := by
  obtain ⟨cq, hcq, hcq0, hcq1⟩ := floatBetween01_exists h5
  obtain ⟨w, hws, hcol⟩ := h6
  refine ⟨?_, rfl⟩
  rw [_estimation_input_checks, checkList]
  rw [runChecks_cons_false (by simp [h1])]
  rw [runChecks_cons_false (by simp [h2])]
  rw [runChecks_cons_false (by simp [h3])]
  rw [runChecks_cons_false (by rcases h4 with h | h <;> simp [h, PyVal.isStr])]
  rw [runChecks_cons_false (by simp [hcq, PyVal.isFloat])]
  rw [runChecks_cons_false (by rcases h4 with h | h <;> simp [h])]
  rw [runChecks_cons_false (by simp [hcq, PyVal.floatVal, not_le, hcq0])]
  rw [runChecks_cons_false (by simp [hcq, PyVal.floatVal, not_le, hcq1])]
  rw [runChecks_cons_false (by simp [hws, PyVal.isStr])]
  rw [runChecks_cons_true (by simp [hws, PyVal.isStr, PyVal.strVal, hcol])]

theorem weights_missing_column_reported_by_assert_witness :
    (c8args.fml.isStr = true
     ∧ (∃ w, c8args.weights = PyVal.str w ∧ c8args.data.hasColumn w = false))
    ∧ (_estimation_input_checks c8args
         = .error (.assertionError "weights must be a column in data")
       ∧ PyError.isNamedValidationError (.assertionError "weights must be a column in data")
           = false) :=
  ⟨⟨rfl, ⟨"w", rfl, by decide⟩⟩,
   weights_missing_column_reported_by_assert c8args rfl rfl rfl (Or.inl rfl) (by decide)
     ⟨"w", rfl, by decide⟩⟩

/-- Claim C9: every `feols_compressed` call with bootstrap=False and a
vcov other than iid or hetero that gets past the initial compressed fit
reaches the use of the local variable kwargs before it has been assigned
(it is assigned only in the bootstrap branch), so the call raises the
unhandled NameError instead of completing the advertised bootstrap
fallback. -/
theorem feols_compressed_unbound_kwargs (fml : String) (data : DataFrame) (vcov : PyVal)
    (reps : ℕ) (seed : Option ℤ)
    (h1 : vcov ≠ PyVal.str "iid") (h2 : vcov ≠ PyVal.str "hetero")
    (h3 : (_feols_compressed fml data vcov).isOk = true) :
    feols_compressed fml data vcov false reps seed
      = .error (.nameError "name kwargs is not defined") := by
  rw [feols_compressed]
  cases hres : _feols_compressed fml data vcov with
  | error e => rw [hres] at h3; exact absurd h3 (by simp [Except.isOk, Except.toBool])
  | ok fit => simp [h1, h2]

theorem feols_compressed_unbound_kwargs_witness :
    (PyVal.str "HC1" ≠ PyVal.str "iid"
     ∧ PyVal.str "HC1" ≠ PyVal.str "hetero"
     ∧ (_feols_compressed "Y~X" dfYX (PyVal.str "HC1")).isOk = true)
    ∧ feols_compressed "Y~X" dfYX (PyVal.str "HC1") false 1000 Option.none
        = .error (.nameError "name kwargs is not defined") :=
  ⟨⟨by decide, by decide, by decide⟩,
   feols_compressed_unbound_kwargs "Y~X" dfYX (PyVal.str "HC1") 1000 Option.none
     (by decide) (by decide) (by decide)⟩

/-- Claim C10: for every pair of seed values and otherwise identical
inputs, `feols_compressed` with bootstrap=True returns the same result for
both seeds, because the bootstrap branch passes the hard-coded seed 12 to
`fit.bootstrap` (and passes it on every successful call), ignoring the
seed parameter. -/
theorem feols_compressed_ignores_seed (fml : String) (data : DataFrame)
    (vcov : PyVal) (reps : ℕ) (s1 s2 : Option ℤ) :
    feols_compressed fml data vcov true reps s1 = feols_compressed fml data vcov true reps s2
    ∧ bootstrapSeedsPassed (feols_compressed fml data vcov true reps s1)
        = (if (_feols_compressed fml data vcov).isOk then [some 12] else []) := by
  rw [feols_compressed, feols_compressed]
  cases hres : _feols_compressed fml data vcov with
  | error e => simp [bootstrapSeedsPassed, Except.isOk, Except.toBool]
  | ok fit => simp [bootstrapSeedsPassed, Except.isOk, Except.toBool]

end PyFixest
